import Mathlib

/-!
Verification development for the napari-mobilesam plugin.

Shallow embedding of the conversion, bookkeeping and wrapper logic of the
repository:

* `src/napari_mobilesam/utils.py` : `shapes_to_points`, `shapes_to_box`,
  `mask_to_binary`;
* `src/napari_mobilesam/mobilesam_wrapper.py` : the `MobileSamWrapper`
  embedding state machine and the three predict variants;
* `src/napari_mobilesam/_widget.py` : `_generate_label_color`,
  `_add_mask_to_labels`, `_set_current_image`, `_clear_annotations`,
  `_adjust_mask_boundary`.

Machine floats are modelled by rationals, numpy arrays by lists of lists
tagged with a dtype, Python dicts by insertion-ordered association lists,
and Python exceptions by `Except` or by explicit error flags.
-/

/-! ## Shape records

The widget builds the dictionaries passed to `shapes_to_points` and
`shapes_to_box` itself (lines 1382-1392 of `_widget.py`): each record always
carries a `shape_type` string and a `data` vertex array.  A vertex is a
coordinate row of rationals (napari rows are (y, x) pairs, but the code never
assumes a fixed arity when filtering, so we keep `List` here). -/

structure ShapeRec where
  shape_type : String
  data : List (List ℚ)
deriving DecidableEq

instance {ε α : Type} [DecidableEq ε] [DecidableEq α] : DecidableEq (Except ε α) :=
  fun a b =>
    match a, b with
    | .ok x, .ok y =>
      if h : x = y then isTrue (by rw [h])
      else isFalse (by intro hc; injection hc; contradiction)
    | .error x, .error y =>
      if h : x = y then isTrue (by rw [h])
      else isFalse (by intro hc; injection hc; contradiction)
    | .ok _, .error _ => isFalse (by intro hc; cases hc)
    | .error _, .ok _ => isFalse (by intro hc; cases hc)

/-- Minimum of a nonempty list, 0 on the empty list (Python min never sees
the empty list in the translated code because of the preceding guards). -/
def listMinQ : List ℚ → ℚ
  | [] => 0
  | x :: xs => xs.foldl min x

/-- Maximum of a nonempty list, 0 on the empty list. -/
def listMaxQ : List ℚ → ℚ
  | [] => 0
  | x :: xs => xs.foldl max x

/-- Translation of `utils.shapes_to_points` (utils.py lines 10-40).
Keeps the point-type records, extracts the first vertex of each, and uses the
supplied labels only when the list is nonempty and its length matches the
number of point records, else defaults every point to foreground 1.
Reading `s["data"][0]` on an empty vertex array raises an uncaught
IndexError, modelled as `Except.error`. -/
def shapes_to_points (shapes : List ShapeRec) (labels : List ℤ) :
    Except String (List (List ℚ) × List ℤ) :=
  if shapes.isEmpty then .ok ([], [])
  else
    let point_shapes := shapes.filter (fun s => s.shape_type == "point")
    if point_shapes.isEmpty then .ok ([], [])
    else if point_shapes.any (fun s => s.data.isEmpty) then .error ("IndexError")
    else
      let points := point_shapes.map (fun s => s.data.headD [])
      let point_labels :=
        if ¬ labels.isEmpty ∧ labels.length = point_shapes.length then labels
        else List.replicate point_shapes.length 1
      .ok (points, point_labels)

/-- Translation of `utils.shapes_to_box` (utils.py lines 43-94).
Filters to rectangle records, takes the last one, and computes the bounding
box [x_min, y_min, x_max, y_max] from the vertex extrema, where the x
coordinate of a vertex is entry 1 and the y coordinate entry 0.  The guards
mirror the source: fewer than 4 vertices gives an empty result, an IndexError
while reading a vertex with fewer than 2 entries is caught by the
`try/except` and gives an empty result, and a non-positive width or height
gives an empty result. -/
def shapes_to_box (shapes : List ShapeRec) : List ℚ :=
  if shapes.isEmpty then []
  else
    let rect_shapes := shapes.filter (fun s => s.shape_type == "rectangle")
    match rect_shapes.getLast? with
    | none => []
    | some rect =>
      let rect_data := rect.data
      if rect_data.length < 4 then []
      else if rect_data.any (fun p => p.length < 2) then []
      else
        let x_coords := rect_data.map (fun p => p.getD 1 0)
        let y_coords := rect_data.map (fun p => p.getD 0 0)
        if x_coords.isEmpty ∨ y_coords.isEmpty then []
        else
          let x_min := listMinQ x_coords
          let y_min := listMinQ y_coords
          let x_max := listMaxQ x_coords
          let y_max := listMaxQ y_coords
          if x_max ≤ x_min ∨ y_max ≤ y_min then []
          else [x_min, y_min, x_max, y_max]

/-! ## Masks and binarization -/

/-- The numpy dtypes relevant to the translated code. -/
inductive NpDType where
  | uint8
  | int16
  | int32
  | int64
  | float32
  | float64
deriving DecidableEq

/-- Exactly the membership test `mask.dtype in (np.uint8, np.int32, np.int64)`
of utils.py line 109. -/
def NpDType.isInTriple : NpDType → Bool
  | .uint8 => true
  | .int32 => true
  | .int64 => true
  | _ => false

/-- An integer dtype in the numpy sense. -/
def NpDType.isIntegerKind : NpDType → Bool
  | .uint8 => true
  | .int16 => true
  | .int32 => true
  | .int64 => true
  | _ => false

/-- A 2D numpy array: a dtype tag and the element grid (elements as
rationals). -/
structure NpMask where
  dtype : NpDType
  data : List (List ℚ)
deriving DecidableEq

/-- Translation of `utils.mask_to_binary` (utils.py lines 97-112).  The
Python default for `threshold` is 0.5; call sites that use the default pass
one half (as `Rat.divInt 1 2`) explicitly here. -/
def mask_to_binary (mask : NpMask) (threshold : ℚ) : NpMask :=
  if mask.dtype.isInTriple then
    ⟨.uint8, mask.data.map (List.map (fun v => if 0 < v then 1 else 0))⟩
  else
    ⟨.uint8, mask.data.map (List.map (fun v => if threshold < v then 1 else 0))⟩

/-! ## Color generation (widget lines 2337-2349) -/

/-- Python float modulo for a positive modulus: `a % b = a - b * floor(a/b)`. -/
def pymod (a b : ℚ) : ℚ := a - b * ⌊a / b⌋

/-- Python `int()` truncation toward zero on a rational. -/
def pytrunc (q : ℚ) : ℤ := if q < 0 then ⌈q⌉ else ⌊q⌋

/-- Translation of `colorsys.hsv_to_rgb` from the Python standard library,
which `_generate_label_color` calls. -/
def hsv_to_rgb (h s v : ℚ) : ℚ × ℚ × ℚ :=
  if s = 0 then (v, v, v)
  else
    let i0 : ℤ := pytrunc (h * 6)
    let f : ℚ := h * 6 - (i0 : ℚ)
    let p : ℚ := v * (1 - s)
    let q : ℚ := v * (1 - s * f)
    let t : ℚ := v * (1 - s * (1 - f))
    let i : ℤ := i0 % 6
    if i = 0 then (v, t, p)
    else if i = 1 then (q, v, p)
    else if i = 2 then (p, q, v)
    else if i = 3 then (p, q, t)
    else if i = 4 then (t, p, v)
    else (v, p, q)

/-- Translation of `MobileSamWidget._generate_label_color` (widget lines
2337-2349).  The source constant is `0.618033988749895`. -/
def generate_label_color (label_id : ℤ) : List ℚ :=
  let golden_ratio_conjugate : ℚ := 618033988749895 / 1000000000000000
  let h := pymod ((label_id : ℚ) * golden_ratio_conjugate) 1
  let s : ℚ := 8 / 10
  let v : ℚ := 95 / 100
  let rgb := hsv_to_rgb h s v
  [rgb.1, rgb.2.1, rgb.2.2, 1]

/-- The color function exactly as the specification words it: hue is
`(id * 0.6180339887) mod 1` (the truncated constant printed in the
specification), saturation 0.8, value 0.95, converted to RGB, alpha 1.0. -/
def colorFor_spec (id : ℤ) : List ℚ :=
  let hue := Int.fract ((id : ℚ) * (6180339887 / 10000000000))
  let rgb := hsv_to_rgb hue (8 / 10) (95 / 100)
  [rgb.1, rgb.2.1, rgb.2.2, 1]

/-- The specification formula with the constant amended to the value that
actually appears in the source, `0.618033988749895`. -/
def colorFor_amended (id : ℤ) : List ℚ :=
  let hue := Int.fract ((id : ℚ) * (618033988749895 / 1000000000000000))
  let rgb := hsv_to_rgb hue (8 / 10) (95 / 100)
  [rgb.1, rgb.2.1, rgb.2.2, 1]

/-! ## The model wrapper (mobilesam_wrapper.py)

`MobileSamWrapper.image_embeddings` is a Python attribute that takes the
values `None` (set in `__init__`), `True` (successful `set_image`) and
`False` (the failure handler of `set_image`, line 205).  The three predict
variants guard with `is None` only (lines 227, 263, 307).  The underlying
`SamPredictor` keeps its own `is_image_set` flag; a failure inside
`set_image` before `predictor.set_image` runs leaves that flag, and any
cached embedding, untouched. -/

inductive PyEmb where
  | pynone
  | pybool (b : Bool)
deriving DecidableEq

structure WrapperState where
  image_embeddings : PyEmb
  predictor_is_image_set : Bool
deriving DecidableEq

/-- Wrapper state after `MobileSamWrapper.__init__` (line 143 sets
`image_embeddings = None`; a fresh `SamPredictor` has no image). -/
def MobileSamWrapper.init : WrapperState :=
  ⟨.pynone, false⟩

/-- Translation of `MobileSamWrapper.set_image` (lines 146-206).  The flag
`ok` abstracts whether the body raises (None input, a conversion error, or a
predictor failure); the modelled failure occurs before the underlying
`predictor.set_image` call, so the predictor keeps whatever image it had.  On
success the embedding marker becomes `True`; on failure the handler at lines
204-206 sets it to `False` and re-raises. -/
def set_image (s : WrapperState) (ok : Bool) : WrapperState × Option String :=
  if ok then (⟨.pybool true, true⟩, none)
  else ({ s with image_embeddings := .pybool false }, some ("ValueError"))

/-- The output of the external `SamPredictor.predict` call: candidate masks
and their parallel confidence scores.  The external model is out of scope, so
the result is a parameter of each predict variant. -/
structure SamPredictOutput where
  masks : List NpMask
  scores : List ℚ
deriving DecidableEq

/-- Model of `np.argmax`: the index of the first occurrence of the maximum
(numpy documents that on ties the first occurrence is returned). -/
def npArgmax (l : List ℚ) : ℕ := l.indexOf (listMaxQ l)

/-- Translation of `MobileSamWrapper.predict_from_points` (lines 208-244):
guard `image_embeddings is None`, forward the prompt, return the masks, the
scores, and `np.argmax(scores)`. -/
def predict_from_points (s : WrapperState) (points : List (List ℚ))
    (labels : List ℤ) (ext : SamPredictOutput) :
    Except String (List NpMask × List ℚ × ℕ) :=
  if s.image_embeddings = .pynone then .error ("ValueError: set_image first")
  else .ok (ext.masks, ext.scores, npArgmax ext.scores)

/-- Translation of `MobileSamWrapper.predict_from_box` (lines 246-284); the
box must have shape (4,). -/
def predict_from_box (s : WrapperState) (box : List ℚ)
    (ext : SamPredictOutput) :
    Except String (List NpMask × List ℚ × ℕ) :=
  if s.image_embeddings = .pynone then .error ("ValueError: set_image first")
  else if box.length ≠ 4 then .error ("ValueError: bad box shape")
  else .ok (ext.masks, ext.scores, npArgmax ext.scores)

/-- Translation of `MobileSamWrapper.predict_from_box_and_points` (lines
286-330). -/
def predict_from_box_and_points (s : WrapperState) (box : List ℚ)
    (points : List (List ℚ)) (labels : List ℤ) (ext : SamPredictOutput) :
    Except String (List NpMask × List ℚ × ℕ) :=
  if s.image_embeddings = .pynone then .error ("ValueError: set_image first")
  else if box.length ≠ 4 then .error ("ValueError: bad box shape")
  else .ok (ext.masks, ext.scores, npArgmax ext.scores)

/-! ## Widget state (the fields of `MobileSamWidget` that the translated
methods read or write) -/

/-- One entry of `label_mask_history` (widget lines 1668-1672). -/
structure MaskHistoryEntry where
  mask : NpMask
  name : String
  mask_idx : ℕ
deriving DecidableEq

/-- The napari Labels layer as the widget uses it: the integer raster and the
two metadata dictionaries.  `metadata_names` is `none` when the layer has no
`label_names` metadata (the `hasattr`/`in` check of widget line 1623). -/
structure LabelsLayer where
  data : List (List ℕ)
  metadata_names : Option (List (ℕ × String))
  metadata_colors : Option (List (ℕ × List ℚ))
deriving DecidableEq

structure WidgetState where
  model_loaded : Bool
  current_image : Option (List (List ℚ))
  predict_enabled : Bool
  shapes : List ShapeRec
  result_masks : List NpMask
  result_scores : List ℚ
  selected_mask_idx : ℕ
  label_names : List (ℕ × String)
  label_colors : List (ℕ × List ℚ)
  next_label_id : ℕ
  label_mask_history : List (ℕ × MaskHistoryEntry)
  labels_layer : Option LabelsLayer
deriving DecidableEq

/-- Widget state after `MobileSamWidget.__init__` (widget lines 42-78). -/
def MobileSamWidget.init : WidgetState where
  model_loaded := false
  current_image := none
  predict_enabled := false
  shapes := []
  result_masks := []
  result_scores := []
  selected_mask_idx := 0
  label_names := []
  label_colors := []
  next_label_id := 1
  label_mask_history := []
  labels_layer := none

/-- Python dict assignment `d[k] = v` on an insertion-ordered association
list: replace in place when the key exists, append otherwise. -/
def dictSet {α : Type} (l : List (ℕ × α)) (k : ℕ) (v : α) : List (ℕ × α) :=
  if l.any (fun kv => kv.1 == k) then
    l.map (fun kv => if kv.1 == k then (k, v) else kv)
  else l ++ [(k, v)]

/-- The loop of widget lines 1631-1636: iterate the `label_names` dict in
insertion order and return the first id mapped to `name`. -/
def findIdByName (names : List (ℕ × String)) (name : String) : Option ℕ :=
  (names.find? (fun kv => kv.2 == name)).map Prod.fst

/-- `max(self.label_names.keys(), default=0)` of widget line 1639. -/
def maxKeys (names : List (ℕ × String)) : ℕ :=
  (names.map Prod.fst).foldl max 0

/-- The two raster assignments of widget lines 1675-1677:
`labels_data[labels_data == label_id] = 0` followed by
`labels_data[binary_mask > 0] = label_id`, pixelwise. -/
def applyMask (data : List (List ℕ)) (m : List (List ℚ)) (label_id : ℕ) :
    List (List ℕ) :=
  List.zipWith
    (fun drow mrow =>
      List.zipWith
        (fun d mv => if 0 < mv then label_id else if d = label_id then 0 else d)
        drow mrow)
    data m

/-- `np.zeros_like(mask)` for the raster grid (widget line 1699). -/
def zerosLike (m : List (List ℚ)) : List (List ℕ) :=
  m.map (fun row => row.map (fun _ => 0))

/-- Python `str.strip()`: drop leading and trailing whitespace. -/
def pystrip (s : String) : String :=
  ⟨((s.data.dropWhile Char.isWhitespace).reverse.dropWhile
      Char.isWhitespace).reverse⟩

/-- The label name resolution of widget lines 1612-1614: strip the combo
text, and fall back to a generated placeholder when it is empty. -/
def resolve_label_name (s : WidgetState) (name0 : String) : String :=
  if pystrip name0 == "" then "对象" ++ toString s.next_label_id
  else pystrip name0

/-- Translation of `MobileSamWidget._add_mask_to_labels` (widget lines
1598-1755).  `name0` is the current text of the label name combo box.  The
guard mirrors line 1601; the three branches mirror: an existing layer whose
metadata carries `label_names` (restoring the dicts, then either reusing the
id found by name or allocating `max(keys, default=0) + 1`), an existing layer
without that metadata (allocating `next_label_id`), and no layer (fresh
raster, id 1).  Pure presentation work (combo refresh, status text, layer
color property) is not part of the state. -/
def add_mask_to_labels (s : WidgetState) (name0 : String) : WidgetState :=
  if s.result_masks.isEmpty ∨ s.result_masks.length ≤ s.selected_mask_idx then s
  else
    let mask := s.result_masks.getD s.selected_mask_idx ⟨.float32, []⟩
    let binary_mask := mask_to_binary mask (Rat.divInt 1 2)
    let label_name := resolve_label_name s name0
    match s.labels_layer with
    | some layer =>
      match layer.metadata_names with
      | some names =>
        let colors := layer.metadata_colors.getD s.label_colors
        match findIdByName names label_name with
        | some label_id =>
          let history := dictSet s.label_mask_history label_id
            ⟨binary_mask, label_name, s.selected_mask_idx⟩
          let data2 := applyMask layer.data binary_mask.data label_id
          { s with
            label_names := names
            label_colors := colors
            label_mask_history := history
            labels_layer := some
              ⟨data2, some names, some colors⟩ }
        | none =>
          let label_id := maxKeys names + 1
          let names2 := names ++ [(label_id, label_name)]
          let colors2 := dictSet colors label_id (generate_label_color (label_id : ℤ))
          let history := dictSet s.label_mask_history label_id
            ⟨binary_mask, label_name, s.selected_mask_idx⟩
          let data2 := applyMask layer.data binary_mask.data label_id
          { s with
            label_names := names2
            label_colors := colors2
            label_mask_history := history
            labels_layer := some
              ⟨data2, some names2, some colors2⟩ }
      | none =>
        let label_id := s.next_label_id
        let names2 := [(label_id, label_name)]
        let colors2 := [(label_id, generate_label_color (label_id : ℤ))]
        let history := dictSet s.label_mask_history label_id
          ⟨binary_mask, label_name, s.selected_mask_idx⟩
        let data2 := applyMask layer.data binary_mask.data label_id
        { s with
          label_names := names2
          label_colors := colors2
          next_label_id := label_id + 1
          label_mask_history := history
          labels_layer := some
            ⟨data2, some names2, some colors2⟩ }
    | none =>
      let label_id : ℕ := 1
      let names2 := [(label_id, label_name)]
      let colors2 := [(label_id, generate_label_color (label_id : ℤ))]
      let history := dictSet s.label_mask_history label_id
        ⟨binary_mask, label_name, s.selected_mask_idx⟩
      let data2 := applyMask (zerosLike binary_mask.data) binary_mask.data label_id
      { s with
        label_names := names2
        label_colors := colors2
        next_label_id := label_id + 1
        label_mask_history := history
        labels_layer := some
          ⟨data2, some names2, some colors2⟩ }

/-- Translation of `MobileSamWidget._set_current_image` (widget lines
1275-1330).  `sel` is the image data of the selected layer (`none` when the
combo is empty), and `ok` abstracts whether `model.set_image` raises.  The
method never touches `result_masks`, `result_scores` or
`selected_mask_idx`. -/
def set_current_image (s : WidgetState) (sel : Option (List (List ℚ)))
    (ok : Bool) : WidgetState :=
  if ¬ s.model_loaded then s
  else
    match sel with
    | none => s
    | some img =>
      if ok then { s with current_image := some img, predict_enabled := true }
      else s

/-- Translation of `MobileSamWidget._clear_annotations` (widget lines
1965-2001): the shapes layer data is emptied and the prediction result state
is reset.  The label dictionaries are deliberately kept (line 1998 comment in
the source). -/
def clear_annotations (s : WidgetState) : WidgetState :=
  { s with
    shapes := []
    result_masks := []
    result_scores := []
    selected_mask_idx := 0 }

/-! ## Morphological boundary adjustment (widget lines 2455-2493) -/

/-- Grid access with bounds check, `none` outside the grid. -/
def cellOpt (g : List (List ℚ)) (i j : ℤ) : Option ℚ :=
  if i < 0 ∨ j < 0 then none
  else (g.get? i.toNat).bind (fun row => row.get? j.toNat)

/-- The in-bounds values of the 3x3 neighborhood of cell (i, j); cv2 dilate
and erode with the default border ignore out-of-image samples. -/
def nbhd (g : List (List ℚ)) (i j : ℕ) : List ℚ :=
  ([-1, 0, 1] : List ℤ).flatMap (fun di =>
    ([-1, 0, 1] : List ℤ).filterMap (fun dj =>
      cellOpt g ((i : ℤ) + di) ((j : ℤ) + dj)))

/-- `cv2.dilate` with a 3x3 ones kernel, one iteration. -/
def dilate3 (g : List (List ℚ)) : List (List ℚ) :=
  g.enum.map (fun ir => ir.2.enum.map (fun jc => listMaxQ (nbhd g ir.1 jc.1)))

/-- `cv2.erode` with a 3x3 ones kernel, one iteration. -/
def erode3 (g : List (List ℚ)) : List (List ℚ) :=
  g.enum.map (fun ir => ir.2.enum.map (fun jc => listMinQ (nbhd g ir.1 jc.1)))

/-- Translation of `MobileSamWidget._adjust_mask_boundary` (widget lines
2455-2493): guard on an available selected mask, binarize it, dilate when
`operation_type > 0` else erode, and store the adjusted mask back at the
selected index cast to float32.  Scores and the other masks are not
touched. -/
def adjust_mask_boundary (s : WidgetState) (operation_type : ℤ) : WidgetState :=
  if s.result_masks.isEmpty ∨ s.result_masks.length ≤ s.selected_mask_idx then s
  else
    let mask := s.result_masks.getD s.selected_mask_idx ⟨.float32, []⟩
    let binary_mask := mask_to_binary mask (Rat.divInt 1 2)
    let adjusted :=
      if 0 < operation_type then dilate3 binary_mask.data
      else erode3 binary_mask.data
    { s with
      result_masks := s.result_masks.set s.selected_mask_idx ⟨.float32, adjusted⟩ }

/-! ## Helper lemmas -/

theorem le_foldl_max_init {α : Type} [LinearOrder α] (l : List α) (a : α) :
    a ≤ l.foldl max a := by
  induction l generalizing a with
  | nil => simp
  | cons x xs ih => exact le_trans (le_max_left a x) (ih (max a x))

theorem le_foldl_max_mem {α : Type} [LinearOrder α] (l : List α) (a : α) :
    ∀ x ∈ l, x ≤ l.foldl max a := by
  induction l generalizing a with
  | nil => simp
  | cons y ys ih =>
    intro x hx
    rcases List.mem_cons.mp hx with rfl | h
    · exact le_trans (le_max_right a x) (le_foldl_max_init ys (max a x))
    · exact ih (max a y) x h

theorem foldl_max_mem {α : Type} [LinearOrder α] (l : List α) (a : α) :
    l.foldl max a = a ∨ l.foldl max a ∈ l := by
  induction l generalizing a with
  | nil => exact Or.inl rfl
  | cons y ys ih =>
    rw [List.foldl_cons]
    rcases ih (max a y) with h | h
    · rcases max_choice a y with hm | hm
      · exact Or.inl (h.trans hm)
      · exact Or.inr (by rw [h, hm]; exact List.mem_cons_self y ys)
    · exact Or.inr (List.mem_cons_of_mem y h)

theorem foldl_min_le_init {α : Type} [LinearOrder α] (l : List α) (a : α) :
    l.foldl min a ≤ a := by
  induction l generalizing a with
  | nil => simp
  | cons x xs ih => exact le_trans (ih (min a x)) (min_le_left a x)

theorem foldl_min_le_mem {α : Type} [LinearOrder α] (l : List α) (a : α) :
    ∀ x ∈ l, l.foldl min a ≤ x := by
  induction l generalizing a with
  | nil => simp
  | cons y ys ih =>
    intro x hx
    rcases List.mem_cons.mp hx with rfl | h
    · exact le_trans (foldl_min_le_init ys (min a x)) (min_le_right a x)
    · exact ih (min a y) x h

theorem foldl_min_mem {α : Type} [LinearOrder α] (l : List α) (a : α) :
    l.foldl min a = a ∨ l.foldl min a ∈ l := by
  induction l generalizing a with
  | nil => exact Or.inl rfl
  | cons y ys ih =>
    rw [List.foldl_cons]
    rcases ih (min a y) with h | h
    · rcases min_choice a y with hm | hm
      · exact Or.inl (h.trans hm)
      · exact Or.inr (by rw [h, hm]; exact List.mem_cons_self y ys)
    · exact Or.inr (List.mem_cons_of_mem y h)

theorem listMaxQ_mem (l : List ℚ) (h : l ≠ []) : listMaxQ l ∈ l := by
  cases l with
  | nil => exact absurd rfl h
  | cons x xs =>
    rcases foldl_max_mem xs x with h1 | h1
    · rw [listMaxQ, h1]; exact List.mem_cons_self x xs
    · exact List.mem_cons_of_mem x (by rw [listMaxQ]; exact h1)

theorem le_listMaxQ (l : List ℚ) (x : ℚ) (hx : x ∈ l) : x ≤ listMaxQ l := by
  cases l with
  | nil => simp at hx
  | cons y ys =>
    rcases List.mem_cons.mp hx with rfl | h
    · exact le_foldl_max_init ys x
    · exact le_foldl_max_mem ys y x h

theorem listMinQ_mem (l : List ℚ) (h : l ≠ []) : listMinQ l ∈ l := by
  cases l with
  | nil => exact absurd rfl h
  | cons x xs =>
    rcases foldl_min_mem xs x with h1 | h1
    · rw [listMinQ, h1]; exact List.mem_cons_self x xs
    · exact List.mem_cons_of_mem x (by rw [listMinQ]; exact h1)

theorem listMinQ_le (l : List ℚ) (x : ℚ) (hx : x ∈ l) : listMinQ l ≤ x := by
  cases l with
  | nil => simp at hx
  | cons y ys =>
    rcases List.mem_cons.mp hx with rfl | h
    · exact foldl_min_le_init ys x
    · exact foldl_min_le_mem ys y x h

theorem getElem_ne_of_lt_indexOf {α : Type} [DecidableEq α] :
    ∀ (l : List α) (a : α) (j : ℕ) (hj : j < l.length),
      j < l.indexOf a → l[j] ≠ a := by
  intro l
  induction l with
  | nil => intro a j hj _; simp at hj
  | cons x xs ih =>
    intro a j hj hlt
    by_cases hxa : x = a
    · rw [List.indexOf_cons, hxa] at hlt
      simp at hlt
    · cases j with
      | zero => simpa using hxa
      | succ n =>
        rw [List.indexOf_cons] at hlt
        have hx : (x == a) = false := beq_false_of_ne hxa
        rw [hx] at hlt
        simp only [cond_false] at hlt
        exact ih a n (by simpa using hj) (Nat.lt_of_succ_lt_succ hlt)

/-- `npArgmax` returns a valid index of a maximal score, and every strictly
earlier index holds a strictly smaller score: the first occurrence of the
maximum wins on ties. -/
theorem npArgmax_spec (l : List ℚ) (h : l ≠ []) :
    npArgmax l < l.length ∧
    (∀ j, j < l.length → l.getD j 0 ≤ l.getD (npArgmax l) 0) ∧
    (∀ j, j < npArgmax l → l.getD j 0 < l.getD (npArgmax l) 0) := by
  have hmem : listMaxQ l ∈ l := listMaxQ_mem l h
  have hlt : l.indexOf (listMaxQ l) < l.length := List.indexOf_lt_length.mpr hmem
  have hArg : npArgmax l = l.indexOf (listMaxQ l) := rfl
  have hgetD : l.getD (npArgmax l) 0 = listMaxQ l := by
    rw [hArg, List.getD_eq_getElem l 0 hlt]
    exact List.getElem_indexOf hlt
  refine ⟨hArg ▸ hlt, ?_, ?_⟩
  · intro j hj
    rw [List.getD_eq_getElem l 0 hj, hgetD]
    exact le_listMaxQ l _ (List.getElem_mem hj)
  · intro j hj
    rw [hArg] at hj
    have hjlen : j < l.length := lt_trans hj hlt
    rw [List.getD_eq_getElem l 0 hjlen, hgetD]
    have hne : l[j] ≠ listMaxQ l := getElem_ne_of_lt_indexOf l (listMaxQ l) j hjlen hj
    exact lt_of_le_of_ne (le_listMaxQ l _ (List.getElem_mem hjlen)) hne

/-! ## Claim theorems -/

/-- C8 (confirmed): for every wrapper state holding an embedding, valid box,
and every nonempty score array produced by the external predictor, each of
the three predict variants returns the same single best index, that index is
a valid argmax of the scores, and on exact ties the first occurrence wins. -/
theorem predict_best_idx_is_first_argmax
    (s : WrapperState) (pts : List (List ℚ)) (lbls : List ℤ) (box : List ℚ)
    (ext : SamPredictOutput)
    (hemb : s.image_embeddings ≠ .pynone) (hbox : box.length = 4)
    (hs : ext.scores ≠ []) :
    ∃ i, predict_from_points s pts lbls ext = .ok (ext.masks, ext.scores, i) ∧
      predict_from_box s box ext = .ok (ext.masks, ext.scores, i) ∧
      predict_from_box_and_points s box pts lbls ext
        = .ok (ext.masks, ext.scores, i) ∧
      i < ext.scores.length ∧
      (∀ j, j < ext.scores.length →
        ext.scores.getD j 0 ≤ ext.scores.getD i 0) ∧
      (∀ j, j < i → ext.scores.getD j 0 < ext.scores.getD i 0) := by
  refine ⟨npArgmax ext.scores, ?_, ?_, ?_, ?_, ?_, ?_⟩
  · rw [predict_from_points, if_neg hemb]
  · rw [predict_from_box, if_neg hemb, if_neg (by rw [hbox]; exact fun hc => hc rfl)]
  · rw [predict_from_box_and_points, if_neg hemb,
      if_neg (by rw [hbox]; exact fun hc => hc rfl)]
  · exact (npArgmax_spec ext.scores hs).1
  · exact (npArgmax_spec ext.scores hs).2.1
  · exact (npArgmax_spec ext.scores hs).2.2

/-- Witness for C8 at a concrete input with a tie: scores [1, 3, 3, 2]. -/
theorem predict_best_idx_witness :
    ∃ i, predict_from_points ⟨.pybool true, true⟩ [[1, 1]] [1]
        ⟨[], [1, 3, 3, 2]⟩ = .ok ([], [1, 3, 3, 2], i) ∧
      predict_from_box ⟨.pybool true, true⟩ [0, 0, 5, 5] ⟨[], [1, 3, 3, 2]⟩
        = .ok ([], [1, 3, 3, 2], i) ∧
      predict_from_box_and_points ⟨.pybool true, true⟩ [0, 0, 5, 5] [[1, 1]] [1]
        ⟨[], [1, 3, 3, 2]⟩ = .ok ([], [1, 3, 3, 2], i) ∧
      i < ([1, 3, 3, 2] : List ℚ).length ∧
      (∀ j, j < ([1, 3, 3, 2] : List ℚ).length →
        ([1, 3, 3, 2] : List ℚ).getD j 0 ≤ ([1, 3, 3, 2] : List ℚ).getD i 0) ∧
      (∀ j, j < i →
        ([1, 3, 3, 2] : List ℚ).getD j 0 < ([1, 3, 3, 2] : List ℚ).getD i 0) :=
  predict_best_idx_is_first_argmax ⟨.pybool true, true⟩ [[1, 1]] [1] [0, 0, 5, 5]
    ⟨[], [1, 3, 3, 2]⟩ (by decide) (by decide) (by decide)

/-- C1 (code_bug evaluation): the wrapper that has just suffered a failed
`set_image` after a successful one is in the "no embedding" state the
specification describes (`image_embeddings == False`, an error was raised),
yet every predict variant passes its `is None` guard and forwards the prompt
to the underlying predictor, which still holds the stale previous image.  A
fresh wrapper (embedding `None`) does error as the claim says. -/
theorem predict_after_failed_set_image :
    (let s2 := (set_image (set_image MobileSamWrapper.init true).1 false).1
     s2.image_embeddings = .pybool false ∧
     (set_image (set_image MobileSamWrapper.init true).1 false).2.isSome = true ∧
     s2.predictor_is_image_set = true ∧
     predict_from_points s2 [[1, 1]] [1] ⟨[⟨.float32, [[1]]⟩], [1]⟩
       = .ok ([⟨.float32, [[1]]⟩], [1], 0) ∧
     predict_from_box s2 [0, 0, 5, 5] ⟨[⟨.float32, [[1]]⟩], [1]⟩
       = .ok ([⟨.float32, [[1]]⟩], [1], 0) ∧
     predict_from_box_and_points s2 [0, 0, 5, 5] [[1, 1]] [1]
         ⟨[⟨.float32, [[1]]⟩], [1]⟩
       = .ok ([⟨.float32, [[1]]⟩], [1], 0)) ∧
    (∀ (pts : List (List ℚ)) (lbls : List ℤ) (ext : SamPredictOutput),
      predict_from_points MobileSamWrapper.init pts lbls ext
        = .error ("ValueError: set_image first")) := by
  exact ⟨⟨by decide, by decide, by decide, by decide, by decide, by decide⟩,
    fun pts lbls ext => rfl⟩

theorem binary_grid_values (g : List (List ℚ)) (P : ℚ → Prop) [DecidablePred P] :
    ∀ row ∈ g.map (List.map (fun v => if P v then (1 : ℚ) else 0)),
      ∀ x ∈ row, x = 0 ∨ x = 1 := by
  intro row hrow x hx
  obtain ⟨r0, _, rfl⟩ := List.mem_map.mp hrow
  obtain ⟨v, _, rfl⟩ := List.mem_map.mp hx
  by_cases h : P v <;> simp [h]

/-- C3 counterexample: the claim says every integer-dtype mask uses the
value-positive rule, but an int16 mask is routed to the threshold comparison
because the source only tests dtype membership in (uint8, int32, int64).  At
mask [[3]] with threshold 5 the element 3 is positive, so the claim demands
output [[1]], while the code produces [[0]]. -/
theorem mask_to_binary_integer_dtype_cex :
    (NpMask.mk .int16 [[3]]).dtype.isIntegerKind = true ∧
    (0 : ℚ) < 3 ∧
    mask_to_binary ⟨.int16, [[3]]⟩ 5 = ⟨.uint8, [[0]]⟩ ∧
    mask_to_binary ⟨.int16, [[3]]⟩ 5 ≠ ⟨.uint8, [[1]]⟩ := by
  refine ⟨rfl, by decide, by decide, by decide⟩

/-- C3 amended: masks whose dtype is uint8, int32 or int64 map every positive
element to 1 and every other element to 0; masks of any other dtype
(floating-point, and also the remaining integer dtypes) map every element
strictly above the threshold to 1 and every other to 0; the output dtype is
always unsigned 8-bit with values in 0, 1; and the specification example
[[0.1, 0.6], [0.8, 0.3]] at threshold 0.5 yields [[0, 1], [1, 0]]. -/
theorem mask_to_binary_spec (m : NpMask) (t : ℚ) :
    (m.dtype.isInTriple = true →
      mask_to_binary m t =
        ⟨.uint8, m.data.map (List.map (fun v => if 0 < v then 1 else 0))⟩) ∧
    (m.dtype.isInTriple = false →
      mask_to_binary m t =
        ⟨.uint8, m.data.map (List.map (fun v => if t < v then 1 else 0))⟩) ∧
    (mask_to_binary m t).dtype = .uint8 ∧
    (∀ row ∈ (mask_to_binary m t).data, ∀ x ∈ row, x = 0 ∨ x = 1) ∧
    mask_to_binary ⟨.float64, [[1/10, 3/5], [4/5, 3/10]]⟩ (1/2)
      = ⟨.uint8, [[0, 1], [1, 0]]⟩ := by
  refine ⟨fun h => by simp [mask_to_binary, h], fun h => by simp [mask_to_binary, h],
    ?_, ?_, ?_⟩
  · by_cases h : m.dtype.isInTriple <;> simp [mask_to_binary, h]
  · by_cases h : m.dtype.isInTriple <;> simp only [mask_to_binary, h] <;> simp only
      [Bool.false_eq_true, if_false, if_true] <;>
      exact binary_grid_values m.data _
  · norm_num [mask_to_binary, NpDType.isInTriple]

/-- Witness for C3 amended, at a uint8 mask (positive-value rule) with a
threshold that would give a different answer if it were used. -/
theorem mask_to_binary_spec_witness :
    mask_to_binary ⟨.uint8, [[2, 0]]⟩ 5 = ⟨.uint8, [[1, 0]]⟩ := by
  rw [(mask_to_binary_spec ⟨.uint8, [[2, 0]]⟩ 5).1 rfl]
  decide

/-- C7 (confirmed): the point conversion returns empty outputs when there is
no point-type record; when every point record has a vertex, it returns the
first vertices of exactly the point records in input order, together with the
supplied label list when its length matches the number of point records, and
the all-foreground default otherwise.  Non-point records never contribute. -/
theorem shapes_to_points_spec :
    (∀ (shapes : List ShapeRec) (labels : List ℤ),
      shapes.filter (fun s => s.shape_type == "point") = [] →
      shapes_to_points shapes labels = .ok ([], [])) ∧
    (∀ (shapes : List ShapeRec) (labels : List ℤ),
      shapes.filter (fun s => s.shape_type == "point") ≠ [] →
      (∀ s ∈ shapes.filter (fun s => s.shape_type == "point"), s.data ≠ []) →
      ((labels.length = (shapes.filter (fun s => s.shape_type == "point")).length →
        shapes_to_points shapes labels =
          .ok ((shapes.filter (fun s => s.shape_type == "point")).map
                (fun s => s.data.headD []), labels)) ∧
       (labels.length ≠ (shapes.filter (fun s => s.shape_type == "point")).length →
        shapes_to_points shapes labels =
          .ok ((shapes.filter (fun s => s.shape_type == "point")).map
                (fun s => s.data.headD []),
            List.replicate
              (shapes.filter (fun s => s.shape_type == "point")).length 1)))) := by
  constructor
  · intro shapes labels hfil
    simp [shapes_to_points, hfil]
  · intro shapes labels hne hdata
    have hempty : shapes.isEmpty = false := by
      cases shapes with
      | nil => exact absurd rfl hne
      | cons a l => rfl
    have hpsne : (shapes.filter (fun s => s.shape_type == "point")).isEmpty = false := by
      simpa [List.isEmpty_iff] using hne
    have hany : (shapes.filter (fun s => s.shape_type == "point")).any
        (fun s => s.data.isEmpty) = false := by
      simp only [List.any_eq_false]
      intro s hs
      simpa [List.isEmpty_iff] using hdata s hs
    constructor
    · intro hlen
      have hlabne : labels.isEmpty = false := by
        cases labels with
        | nil =>
          exact absurd (List.length_eq_zero.mp hlen.symm) hne
        | cons a l => rfl
      simp [shapes_to_points, hempty, hpsne, hany, hlabne, hlen]
    · intro hlen
      simp [shapes_to_points, hempty, hpsne, hany, hlen]

/-- Witness for C7 at a mixed shape list: two points around a rectangle, with
a matching label list. -/
theorem shapes_to_points_spec_witness :
    shapes_to_points
        [⟨"point", [[3, 4]]⟩, ⟨"rectangle", [[0, 0], [0, 1], [1, 1], [1, 0]]⟩,
          ⟨"point", [[5, 6]]⟩] [1, 0]
      = .ok ([[3, 4], [5, 6]], [1, 0]) := by
  rw [((shapes_to_points_spec.2
      [⟨"point", [[3, 4]]⟩, ⟨"rectangle", [[0, 0], [0, 1], [1, 1], [1, 0]]⟩,
        ⟨"point", [[5, 6]]⟩] [1, 0] (by decide) (by decide)).1 (by decide))]
  decide

/-- C4 (confirmed): box selection filters to rectangle records and only the
last rectangle matters; the result is empty when there is no rectangle, when
the chosen rectangle has fewer than 4 vertices, when a vertex is malformed
(fewer than 2 entries, the caught IndexError), or when the extrema give a
non-positive width or height; otherwise it is [x_min, y_min, x_max, y_max]
where the four values are members of the coordinate lists bounding them
below and above; and the specification example evaluates to
[10, 10, 20, 20]. -/
theorem shapes_to_box_spec :
    (∀ shapes : List ShapeRec,
      shapes.filter (fun s => s.shape_type == "rectangle") = [] →
      shapes_to_box shapes = []) ∧
    (∀ (shapes : List ShapeRec) (r : ShapeRec),
      (shapes.filter (fun s => s.shape_type == "rectangle")).getLast? = some r →
      ((r.data.length < 4 → shapes_to_box shapes = []) ∧
       ((∃ p ∈ r.data, p.length < 2) → shapes_to_box shapes = []) ∧
       (4 ≤ r.data.length → (∀ p ∈ r.data, 2 ≤ p.length) →
        ((listMaxQ (r.data.map (fun p => p.getD 1 0))
            ≤ listMinQ (r.data.map (fun p => p.getD 1 0)) ∨
          listMaxQ (r.data.map (fun p => p.getD 0 0))
            ≤ listMinQ (r.data.map (fun p => p.getD 0 0)) →
          shapes_to_box shapes = []) ∧
         (listMinQ (r.data.map (fun p => p.getD 1 0))
            < listMaxQ (r.data.map (fun p => p.getD 1 0)) →
          listMinQ (r.data.map (fun p => p.getD 0 0))
            < listMaxQ (r.data.map (fun p => p.getD 0 0)) →
          ∃ x1 y1 x2 y2,
            shapes_to_box shapes = [x1, y1, x2, y2] ∧
            x1 ∈ r.data.map (fun p => p.getD 1 0) ∧
            x2 ∈ r.data.map (fun p => p.getD 1 0) ∧
            y1 ∈ r.data.map (fun p => p.getD 0 0) ∧
            y2 ∈ r.data.map (fun p => p.getD 0 0) ∧
            (∀ x ∈ r.data.map (fun p => p.getD 1 0), x1 ≤ x ∧ x ≤ x2) ∧
            (∀ y ∈ r.data.map (fun p => p.getD 0 0), y1 ≤ y ∧ y ≤ y2) ∧
            x1 < x2 ∧ y1 < y2))))) ∧
    shapes_to_box [⟨"rectangle", [[10, 10], [10, 20], [20, 20], [20, 10]]⟩]
      = [10, 10, 20, 20] := by
  refine ⟨?_, ?_, by decide⟩
  · intro shapes hfil
    simp [shapes_to_box, hfil]
  · intro shapes r hlast
    have hempty : shapes.isEmpty = false := by
      cases shapes with
      | nil => simp at hlast
      | cons a l => rfl
    refine ⟨?_, ?_, ?_⟩
    · intro h4
      simp only [shapes_to_box, hempty, Bool.false_eq_true, if_false, hlast]
      rw [if_pos h4]
    · intro hex
      by_cases h4 : r.data.length < 4
      · simp only [shapes_to_box, hempty, Bool.false_eq_true, if_false, hlast]
        rw [if_pos h4]
      · have hany : (r.data.any (fun p => decide (p.length < 2))) = true := by
          simp only [List.any_eq_true, decide_eq_true_eq]
          exact hex
        simp only [shapes_to_box, hempty, Bool.false_eq_true, if_false, hlast]
        rw [if_neg h4, if_pos hany]
    · intro h4 hall
      have h4' : ¬ (r.data.length < 4) := not_lt.mpr h4
      have hany : (r.data.any (fun p => decide (p.length < 2))) = false := by
        simp only [List.any_eq_false, decide_eq_true_eq]
        intro p hp
        exact not_lt.mpr (hall p hp)
      have hxne : r.data.map (fun p => p.getD 1 0) ≠ [] := by
        intro hc
        have hl := congrArg List.length hc
        simp only [List.length_map, List.length_nil] at hl
        omega
      have hyne : r.data.map (fun p => p.getD 0 0) ≠ [] := by
        intro hc
        have hl := congrArg List.length hc
        simp only [List.length_map, List.length_nil] at hl
        omega
      have hor : ¬ ((r.data.map (fun p => p.getD 1 0)).isEmpty = true ∨
          (r.data.map (fun p => p.getD 0 0)).isEmpty = true) := by
        rw [not_or]
        constructor
        · simpa [List.isEmpty_iff] using hxne
        · simpa [List.isEmpty_iff] using hyne
      constructor
      · intro hnp
        simp only [shapes_to_box, hempty, Bool.false_eq_true, if_false, hlast]
        rw [if_neg h4', if_neg (by simp [hany]), if_neg hor, if_pos hnp]
      · intro hx hy
        refine ⟨listMinQ (r.data.map (fun p => p.getD 1 0)),
          listMinQ (r.data.map (fun p => p.getD 0 0)),
          listMaxQ (r.data.map (fun p => p.getD 1 0)),
          listMaxQ (r.data.map (fun p => p.getD 0 0)), ?_, ?_, ?_, ?_, ?_, ?_, ?_, ?_, ?_⟩
        · simp only [shapes_to_box, hempty, Bool.false_eq_true, if_false, hlast]
          rw [if_neg h4', if_neg (by simp [hany]), if_neg hor,
            if_neg (by rw [not_or]; exact ⟨not_le.mpr hx, not_le.mpr hy⟩)]
        · exact listMinQ_mem _ hxne
        · exact listMaxQ_mem _ hxne
        · exact listMinQ_mem _ hyne
        · exact listMaxQ_mem _ hyne
        · exact fun x hxm => ⟨listMinQ_le _ x hxm, le_listMaxQ _ x hxm⟩
        · exact fun y hym => ⟨listMinQ_le _ y hym, le_listMaxQ _ y hym⟩
        · exact hx
        · exact hy

/-- Witness for C4: a point record is ignored, so a list with no rectangle
gives no box. -/
theorem shapes_to_box_spec_witness :
    shapes_to_box [⟨"point", [[1, 2]]⟩] = [] :=
  shapes_to_box_spec.1 [⟨"point", [[1, 2]]⟩] (by decide)

theorem pymod_one_eq_fract (a : ℚ) : pymod a 1 = Int.fract a := by
  unfold pymod Int.fract
  rw [div_one, one_mul]

/-- C9 counterexample: with the constant exactly as printed in the
specification (0.6180339887), the color for id 1 differs from what the code
computes (the source constant is 0.618033988749895). -/
theorem generate_label_color_constant_cex :
    generate_label_color 1 ≠ colorFor_spec 1 := by
  norm_num [generate_label_color, colorFor_spec, hsv_to_rgb, pymod, pytrunc,
    Int.fract]

/-- C9 amended: with the constant corrected to the source value
0.618033988749895, the color generator is exactly hue
(id * 0.618033988749895) mod 1 at saturation 0.8 and value 0.95 converted to
RGB with alpha 1.0, and it is a pure function of the id (identical ids give
identical colors; the alpha entry is always 1). -/
theorem generate_label_color_matches_amended_spec :
    (∀ id : ℤ, generate_label_color id = colorFor_amended id) ∧
    (∀ id1 id2 : ℤ, id1 = id2 →
      generate_label_color id1 = generate_label_color id2) ∧
    (∀ id : ℤ, (generate_label_color id).getD 3 0 = 1 ∧
      (generate_label_color id).length = 4) := by
  refine ⟨?_, ?_, ?_⟩
  · intro id
    simp only [generate_label_color, colorFor_amended, pymod_one_eq_fract]
  · intro id1 id2 h
    rw [h]
  · intro id
    exact ⟨rfl, rfl⟩

/-- Witness for C9 amended at id 7. -/
theorem generate_label_color_witness :
    generate_label_color 7 = colorFor_amended 7 ∧
    generate_label_color 7 = generate_label_color 7 :=
  ⟨generate_label_color_matches_amended_spec.1 7,
   generate_label_color_matches_amended_spec.2.1 7 7 rfl⟩

/-- C5 counterexample: a state that holds a prediction result and then
successfully sets a new current image keeps the old candidate masks and
scores; the setImage transition does not clear the prior prediction. -/
theorem set_current_image_keeps_prediction_cex :
    (let t := set_current_image
        { MobileSamWidget.init with
            model_loaded := true
            result_masks := [⟨.float32, [[1]]⟩]
            result_scores := [1] }
        (some [[2]]) true
     t.current_image = some [[2]] ∧
     t.predict_enabled = true ∧
     t.result_masks = [⟨.float32, [[1]]⟩] ∧
     t.result_scores = [1] ∧
     t.result_masks ≠ []) := by
  decide

/-- C5 amended: the setImage transition leaves the prediction result state
(candidate masks, scores, selected index) untouched in every case; the
prediction result is discarded only by clearing the annotations, which resets
masks and scores to empty and the selected index to 0 (the folder-navigation
image-load path calls that right after setting the image). -/
theorem set_current_image_preserves_prediction :
    (∀ (s : WidgetState) (sel : Option (List (List ℚ))) (ok : Bool),
      (set_current_image s sel ok).result_masks = s.result_masks ∧
      (set_current_image s sel ok).result_scores = s.result_scores ∧
      (set_current_image s sel ok).selected_mask_idx = s.selected_mask_idx) ∧
    (∀ s : WidgetState,
      (clear_annotations s).result_masks = [] ∧
      (clear_annotations s).result_scores = [] ∧
      (clear_annotations s).selected_mask_idx = 0) := by
  constructor
  · intro s sel ok
    by_cases h : s.model_loaded <;> cases sel <;> cases ok <;>
      simp [set_current_image, h]
  · intro s
    exact ⟨rfl, rfl, rfl⟩

/-- C10 (confirmed): adjusting the mask boundary with a valid selected index
replaces only the selected candidate with the binarized, morphologically
adjusted mask stored as float32; every other candidate, the whole score list,
the selected index, and the label state are unchanged. -/
theorem adjust_mask_boundary_frame (s : WidgetState) (op : ℤ)
    (h : s.selected_mask_idx < s.result_masks.length) :
    (adjust_mask_boundary s op).result_scores = s.result_scores ∧
    (adjust_mask_boundary s op).selected_mask_idx = s.selected_mask_idx ∧
    (adjust_mask_boundary s op).result_masks.length = s.result_masks.length ∧
    (∀ j, j ≠ s.selected_mask_idx →
      (adjust_mask_boundary s op).result_masks.getD j ⟨.float32, []⟩
        = s.result_masks.getD j ⟨.float32, []⟩) ∧
    (adjust_mask_boundary s op).result_masks.getD s.selected_mask_idx
        ⟨.float32, []⟩
      = ⟨.float32,
          if 0 < op then
            dilate3 (mask_to_binary
              (s.result_masks.getD s.selected_mask_idx ⟨.float32, []⟩)
              (Rat.divInt 1 2)).data
          else
            erode3 (mask_to_binary
              (s.result_masks.getD s.selected_mask_idx ⟨.float32, []⟩)
              (Rat.divInt 1 2)).data⟩ ∧
    (adjust_mask_boundary s op).label_names = s.label_names ∧
    (adjust_mask_boundary s op).label_colors = s.label_colors ∧
    (adjust_mask_boundary s op).labels_layer = s.labels_layer ∧
    (adjust_mask_boundary s op).current_image = s.current_image := by
  have hne : s.result_masks.isEmpty = false := by
    cases hm : s.result_masks with
    | nil => rw [hm] at h; simp at h
    | cons a l => rfl
  have hguard : ¬ (s.result_masks.isEmpty = true ∨
      s.result_masks.length ≤ s.selected_mask_idx) := by
    rw [not_or]
    exact ⟨by simp [hne], not_le.mpr h⟩
  unfold adjust_mask_boundary
  rw [if_neg hguard]
  refine ⟨rfl, rfl, by simp, ?_, ?_, rfl, rfl, rfl, rfl⟩
  · intro j hj
    simp only [List.getD_eq_getD_get?, List.get?_eq_getElem?]
    rw [List.getElem?_set_ne (Ne.symm hj)]
  · simp only [List.getD_eq_getD_get?, List.get?_eq_getElem?]
    rw [List.getElem?_set_self h]
    rfl

/-- Witness for C10: the score list survives a dilation of the selected
mask. -/
theorem adjust_mask_boundary_frame_witness :
    (adjust_mask_boundary
        { MobileSamWidget.init with
            result_masks := [⟨.float32, [[1]]⟩]
            result_scores := [1] }
        1).result_scores = [1] :=
  (adjust_mask_boundary_frame
    { MobileSamWidget.init with
        result_masks := [⟨.float32, [[1]]⟩]
        result_scores := [1] }
    1 (by decide)).1

theorem masks_guard_false (s : WidgetState)
    (h : s.selected_mask_idx < s.result_masks.length) :
    ¬ (s.result_masks.isEmpty = true ∨
       s.result_masks.length ≤ s.selected_mask_idx) := by
  rw [not_or]
  constructor
  · cases hm : s.result_masks with
    | nil => rw [hm] at h; simp at h
    | cons a l => simp
  · exact not_le.mpr h

theorem getD_zipWith {α β γ : Type} (f : α → β → γ) (a : List α) (b : List β)
    (i : ℕ) (da : α) (db : β) (dc : γ) (ha : i < a.length) (hb : i < b.length) :
    (List.zipWith f a b).getD i dc = f (a.getD i da) (b.getD i db) := by
  induction a generalizing b i with
  | nil => simp at ha
  | cons x xs ih =>
    cases b with
    | nil => simp at hb
    | cons y ys =>
      cases i with
      | zero => simp [List.zipWith]
      | succ n =>
        simp only [List.zipWith_cons_cons, List.getD_cons_succ]
        exact ih ys n (by simpa using ha) (by simpa using hb)

/-- The pixelwise effect of the two raster assignments of
`_add_mask_to_labels`: inside the new mask the pixel becomes the label id,
outside it the old footprint of that id is cleared to 0 and every other pixel
keeps its value. -/
theorem applyMask_cell (data : List (List ℕ)) (m : List (List ℚ)) (L : ℕ)
    (i j : ℕ) (hi : i < data.length) (him : i < m.length)
    (hj : j < (data.getD i []).length) (hjm : j < (m.getD i []).length) :
    ((applyMask data m L).getD i []).getD j 0 =
      (if 0 < (m.getD i []).getD j 0 then L
       else if (data.getD i []).getD j 0 = L then 0
       else (data.getD i []).getD j 0) := by
  unfold applyMask
  rw [getD_zipWith _ data m i [] [] [] hi him]
  rw [getD_zipWith _ (data.getD i []) (m.getD i []) j 0 0 0 hj hjm]

/-- C6 (confirmed): accepting a mask under a name that is not in the label
map allocates id = max(existing ids, default 0) + 1; the new id is therefore
fresh and strictly above every existing id, and from an empty map (or with no
labels layer at all) the first allocated id is 1. -/
theorem add_mask_new_name_allocation :
    (∀ (s : WidgetState) (layer : LabelsLayer) (names : List (ℕ × String))
        (name0 : String),
      s.selected_mask_idx < s.result_masks.length →
      s.labels_layer = some layer →
      layer.metadata_names = some names →
      findIdByName names (resolve_label_name s name0) = none →
      ((add_mask_to_labels s name0).label_names
          = names ++ [(maxKeys names + 1, resolve_label_name s name0)] ∧
       findIdByName (add_mask_to_labels s name0).label_names
          (resolve_label_name s name0) = some (maxKeys names + 1) ∧
       (maxKeys names + 1) ∉ names.map Prod.fst ∧
       (∀ k ∈ names.map Prod.fst, k < maxKeys names + 1) ∧
       (names = [] →
        (add_mask_to_labels s name0).label_names
          = [(1, resolve_label_name s name0)]))) ∧
    (∀ (s : WidgetState) (name0 : String),
      s.selected_mask_idx < s.result_masks.length →
      s.labels_layer = none →
      (add_mask_to_labels s name0).label_names
        = [(1, resolve_label_name s name0)]) := by
  constructor
  · intro s layer names name0 hidx hlayer hnames hfind
    have hred : (add_mask_to_labels s name0).label_names
        = names ++ [(maxKeys names + 1, resolve_label_name s name0)] := by
      unfold add_mask_to_labels
      rw [if_neg (masks_guard_false s hidx)]
      simp only [hlayer, hnames, hfind]
    refine ⟨hred, ?_, ?_, ?_, ?_⟩
    · rw [hred, findIdByName, List.find?_append]
      have h1 : names.find? (fun kv => kv.2 == resolve_label_name s name0)
          = none := by
        have h2 := hfind
        rw [findIdByName] at h2
        exact Option.map_eq_none'.mp h2
      rw [h1]
      simp [List.find?]
    · intro hmem
      have h2 : maxKeys names + 1 ≤ maxKeys names :=
        le_foldl_max_mem (names.map Prod.fst) 0 _ hmem
      omega
    · intro k hk
      have h2 : k ≤ maxKeys names := le_foldl_max_mem (names.map Prod.fst) 0 k hk
      omega
    · intro hn
      rw [hred, hn]
      rfl
  · intro s name0 hidx hlayer
    unfold add_mask_to_labels
    rw [if_neg (masks_guard_false s hidx)]
    simp only [hlayer]

/-- Witness for C6: a labels layer whose map holds only id 1 allocates id 2
for a fresh name. -/
theorem add_mask_new_name_allocation_witness :
    (add_mask_to_labels
        { MobileSamWidget.init with
            result_masks := [⟨.float32, [[1]]⟩]
            labels_layer := some ⟨[[0]], some [(1, "a")],
              some [(1, [0, 0, 0, 1])]⟩ }
        "b").label_names = [(1, "a"), (2, "b")] := by
  have h := (add_mask_new_name_allocation.1
    { MobileSamWidget.init with
        result_masks := [⟨.float32, [[1]]⟩]
        labels_layer := some ⟨[[0]], some [(1, "a")], some [(1, [0, 0, 0, 1])]⟩ }
    ⟨[[0]], some [(1, "a")], some [(1, [0, 0, 0, 1])]⟩ [(1, "a")] "b"
    (by decide) rfl rfl (by decide)).1
  rw [h]
  decide

/-- C2 counterexample: accepting a mask under the existing name a (id 1) on
the raster [[1, 2]] with the new mask covering both pixels rewrites the pixel
that belonged to label 2 to 1 — the conjunct "pixels belonging to other
labels are not disturbed" is false when the new mask overlaps another label,
because the raster write `labels_data[binary_mask > 0] = label_id`
overwrites every pixel inside the mask. -/
theorem add_mask_existing_name_cex :
    (let s0 : WidgetState := { MobileSamWidget.init with
        result_masks := [⟨.float32, [[1, 1]]⟩]
        labels_layer := some ⟨[[1, 2]], some [(1, "a"), (2, "b")],
          some [(1, [0, 0, 0, 1]), (2, [1, 1, 1, 1])]⟩ }
     let t := add_mask_to_labels s0 "a"
     findIdByName [(1, "a"), (2, "b")] (resolve_label_name s0 "a") = some 1 ∧
     ((s0.labels_layer.getD ⟨[], none, none⟩).data.getD 0 []).getD 1 0 = 2 ∧
     t.labels_layer = some ⟨[[1, 1]], some [(1, "a"), (2, "b")],
        some [(1, [0, 0, 0, 1]), (2, [1, 1, 1, 1])]⟩ ∧
     ((t.labels_layer.getD ⟨[], none, none⟩).data.getD 0 []).getD 1 0 = 1) := by
  decide

/-- C2 amended: accepting under a name that maps to id L keeps the label map
and color map unchanged (in particular the id and color recorded for that
name), clears every pixel of the old footprint of L outside the new mask to
0, writes L at every pixel inside the new mask, and leaves pixels of other
labels untouched when they lie outside the new mask (inside the mask they are
overwritten by L). -/
theorem add_mask_existing_name_replaces_footprint
    (s : WidgetState) (layer : LabelsLayer) (names : List (ℕ × String))
    (colors : List (ℕ × List ℚ)) (name0 : String) (L : ℕ)
    (hidx : s.selected_mask_idx < s.result_masks.length)
    (hlayer : s.labels_layer = some layer)
    (hnames : layer.metadata_names = some names)
    (hcolors : layer.metadata_colors = some colors)
    (hfind : findIdByName names (resolve_label_name s name0) = some L) :
    (add_mask_to_labels s name0).label_names = names ∧
    (add_mask_to_labels s name0).label_colors = colors ∧
    findIdByName (add_mask_to_labels s name0).label_names
      (resolve_label_name s name0) = some L ∧
    (add_mask_to_labels s name0).labels_layer = some
      ⟨applyMask layer.data
        (mask_to_binary (s.result_masks.getD s.selected_mask_idx ⟨.float32, []⟩)
          (Rat.divInt 1 2)).data L,
       some names, some colors⟩ ∧
    (∀ i j,
      i < layer.data.length →
      i < (mask_to_binary (s.result_masks.getD s.selected_mask_idx
            ⟨.float32, []⟩) (Rat.divInt 1 2)).data.length →
      j < (layer.data.getD i []).length →
      j < ((mask_to_binary (s.result_masks.getD s.selected_mask_idx
            ⟨.float32, []⟩) (Rat.divInt 1 2)).data.getD i []).length →
      (let b := (mask_to_binary (s.result_masks.getD s.selected_mask_idx
            ⟨.float32, []⟩) (Rat.divInt 1 2)).data
       let d2 := applyMask layer.data b L
       (0 < (b.getD i []).getD j 0 → ((d2.getD i []).getD j 0) = L) ∧
       ((b.getD i []).getD j 0 ≤ 0 → (layer.data.getD i []).getD j 0 = L →
         ((d2.getD i []).getD j 0) = 0) ∧
       ((b.getD i []).getD j 0 ≤ 0 → (layer.data.getD i []).getD j 0 ≠ L →
         ((d2.getD i []).getD j 0) = (layer.data.getD i []).getD j 0))) := by
  have hred : add_mask_to_labels s name0 = { s with
      label_names := names
      label_colors := colors
      label_mask_history := dictSet s.label_mask_history L
        ⟨mask_to_binary (s.result_masks.getD s.selected_mask_idx ⟨.float32, []⟩)
          (Rat.divInt 1 2), resolve_label_name s name0, s.selected_mask_idx⟩
      labels_layer := some
        ⟨applyMask layer.data
          (mask_to_binary (s.result_masks.getD s.selected_mask_idx
            ⟨.float32, []⟩) (Rat.divInt 1 2)).data L,
         some names, some colors⟩ } := by
    unfold add_mask_to_labels
    rw [if_neg (masks_guard_false s hidx)]
    simp only [hlayer, hnames, hcolors, hfind, Option.getD_some]
  refine ⟨by rw [hred], by rw [hred], by rw [hred]; exact hfind, by rw [hred], ?_⟩
  intro i j hi him hj hjm
  refine ⟨?_, ?_, ?_⟩
  · intro hpos
    rw [applyMask_cell layer.data _ L i j hi him hj hjm, if_pos hpos]
  · intro hnonpos hold
    rw [applyMask_cell layer.data _ L i j hi him hj hjm,
      if_neg (not_lt.mpr hnonpos), if_pos hold]
  · intro hnonpos hold
    rw [applyMask_cell layer.data _ L i j hi him hj hjm,
      if_neg (not_lt.mpr hnonpos), if_neg hold]

/-- Witness for C2 amended: re-accepting under the existing name keeps the
label map of the concrete two-label state. -/
theorem add_mask_existing_name_witness :
    (add_mask_to_labels
        { MobileSamWidget.init with
            result_masks := [⟨.float32, [[1, 1]]⟩]
            labels_layer := some ⟨[[1, 2]], some [(1, "a"), (2, "b")],
              some [(1, [0, 0, 0, 1]), (2, [1, 1, 1, 1])]⟩ }
        "a").label_names = [(1, "a"), (2, "b")] :=
  (add_mask_existing_name_replaces_footprint
    { MobileSamWidget.init with
        result_masks := [⟨.float32, [[1, 1]]⟩]
        labels_layer := some ⟨[[1, 2]], some [(1, "a"), (2, "b")],
          some [(1, [0, 0, 0, 1]), (2, [1, 1, 1, 1])]⟩ }
    ⟨[[1, 2]], some [(1, "a"), (2, "b")],
      some [(1, [0, 0, 0, 1]), (2, [1, 1, 1, 1])]⟩
    [(1, "a"), (2, "b")] [(1, [0, 0, 0, 1]), (2, [1, 1, 1, 1])] "a" 1
    (by decide) rfl rfl rfl (by decide)).1
